import Mathlib

/-!
Verification of the COSTAR prompt-analysis engine (`src/core/prompt-optimizer.ts`).

Strings are modelled as `List Char` (JS strings over the characters that occur
here), JS number arithmetic in the score aggregator is modelled exactly as
IEEE-754 binary64 over `ℚ` (each operation rounds its exact rational result to
the nearest representable double, ties to even), and the regular-expression
tests of the analyzers are modelled by explicit case-insensitive word-boundary
and substring matchers that follow the JS regex semantics used in the source.
-/

abbrev Str := List Char

/-- ASCII lower-casing, the case-folding relevant to the `/i` regex flags and
the lowercase keyword sets of the source. -/
def asciiLower (c : Char) : Char :=
  if 65 ≤ c.toNat ∧ c.toNat ≤ 90 then Char.ofNat (c.toNat + 32) else c

def lowerStr (s : Str) : Str := s.map asciiLower

/-- JS regex word character class `\w` = `[A-Za-z0-9_]`. -/
def isWordChar (c : Char) : Bool :=
  let n := c.toNat
  decide ((97 ≤ n ∧ n ≤ 122) ∨ (65 ≤ n ∧ n ≤ 90) ∨ (48 ≤ n ∧ n ≤ 57) ∨ n = 95)

/-- JS whitespace (`\s`, and the character set removed by `String.prototype.trim`). -/
def isJSSpace (c : Char) : Bool :=
  let n := c.toNat
  decide (n = 9 ∨ n = 10 ∨ n = 11 ∨ n = 12 ∨ n = 13 ∨ n = 32 ∨ n = 160 ∨
    n = 5760 ∨ (8192 ≤ n ∧ n ≤ 8202) ∨ n = 8232 ∨ n = 8233 ∨ n = 8239 ∨
    n = 8287 ∨ n = 12288 ∨ n = 65279)

/-- JS regex line terminators (the characters `.` does not match). -/
def isLineTerm (c : Char) : Bool :=
  let n := c.toNat
  decide (n = 10 ∨ n = 13 ∨ n = 8232 ∨ n = 8233)

def jsTrimStart (s : Str) : Str := s.dropWhile isJSSpace

def jsTrimEnd (s : Str) : Str := (s.reverse.dropWhile isJSSpace).reverse

/-- `String.prototype.trim`. -/
def jsTrim (s : Str) : Str := jsTrimStart (jsTrimEnd s)

def prefixEq : Str → Str → Bool
  | [], _ => true
  | _ :: _, [] => false
  | p :: ps, c :: cs => p == c && prefixEq ps cs

/-- Case-insensitive prefix test: the pattern is lowercase, the text keeps
its original case. -/
def lowerPrefixEq : Str → Str → Bool
  | [], _ => true
  | _ :: _, [] => false
  | p :: ps, c :: cs => p == asciiLower c && lowerPrefixEq ps cs

def lastOpt : Str → Option Char
  | [] => none
  | [c] => some c
  | _ :: c :: cs => lastOpt (c :: cs)

def isWordCharO : Option Char → Bool
  | none => false
  | some c => isWordChar c

/-- One attempt of `\b(pat)\b` at the current position of `s`, where `prev` is
the character immediately before that position (if any): the pattern must be a
prefix here and a word boundary must hold on both sides. -/
def wordAt (pat : Str) (prev : Option Char) (s : Str) : Bool :=
  prefixEq pat s &&
    (isWordCharO prev != isWordCharO pat.head?) &&
    (isWordCharO (lastOpt pat) != isWordCharO (s.drop pat.length).head?)

def scanAny (pats : List Str) : Option Char → Str → Bool
  | prev, [] => pats.any fun p => wordAt p prev []
  | prev, c :: cs => (pats.any fun p => wordAt p prev (c :: cs)) || scanAny pats (some c) cs

/-- `/\b(p1|p2|…)\b/i.test(s)`. -/
def testWord (pats : List Str) (s : Str) : Bool := scanAny pats none (lowerStr s)

def scanSub (pats : List Str) : Str → Bool
  | [] => pats.any fun p => prefixEq p []
  | c :: cs => (pats.any fun p => prefixEq p (c :: cs)) || scanSub pats cs

/-- `/p1|p2|…/i.test(s)` (plain substring alternation, no word boundaries). -/
def testSub (pats : List Str) (s : Str) : Bool := scanSub pats (lowerStr s)

/-- `/^(p1|p2|…)\b/i.test(s)`: anchored at the start, word boundary after. -/
def testStartWord (pats : List Str) (s : Str) : Bool :=
  pats.any fun p => wordAt p none (lowerStr s)

/-- `/^(p1|p2|…)$/i.test(s)`: the whole string equals one alternative. -/
def testFull (pats : List Str) (s : Str) : Bool :=
  pats.any fun p => p == lowerStr s

def kws (l : List String) : List Str := l.map fun s => s.toList

/-- `split('\n')` of a JS string (always at least one, possibly empty, piece). -/
def splitNl : Str → List Str
  | [] => [[]]
  | c :: cs =>
    if c = '\n' then [] :: splitNl cs
    else
      match splitNl cs with
      | [] => [[c]]
      | l :: ls => (c :: l) :: ls

/-- `join('\n')` of a list of strings. -/
def joinNl : List Str → Str
  | [] => []
  | [x] => x
  | x :: y :: ys => x ++ '\n' :: joinNl (y :: ys)

/-- `join(', ')`. -/
def joinCommaSpace : List Str → Str
  | [] => []
  | [x] => x
  | x :: y :: ys => x ++ (", ").toList ++ joinCommaSpace (y :: ys)

def natToStr (n : Nat) : Str := (Nat.toDigits 10 n)

-- Shared lexical helper predicates of the source (`hasContext` … `hasUnrealisticScope`).

def hasContext (p : Str) : Bool :=
  testWord (kws ["background", "context", "currently", "existing", "problem",
    "issue", "because", "given", "situation"]) p

def hasSuccessCriteria (p : Str) : Bool :=
  testWord (kws ["success", "complete", "done", "measure", "metric", "goal",
    "should be able to"]) p

def hasTechnicalDetails (p : Str) : Bool :=
  testWord (kws ["react", "vue", "angular", "node", "python", "java",
    "typescript", "api", "database", "sql", "nosql", "aws", "docker",
    "kubernetes"]) p ||
  testWord (kws ["integrate", "performance", "scale", "security"]) p

def hasUserNeeds (p : Str) : Bool :=
  testWord (kws ["user", "customer", "client", "team", "developer", "admin",
    "visitor", "audience"]) p

def hasExpectedOutput (p : Str) : Bool :=
  testWord (kws ["output", "result", "deliverable", "should", "look like",
    "include", "contain", "provide", "return"]) p

def hasUnrealisticScope (p : Str) : Bool :=
  testFull (kws ["build a app", "build an app", "create a system",
    "make a platform", "develop everything"]) (jsTrim p) ||
  (decide (p.length < 30) && testWord (kws ["app", "system", "platform"]) p)

def countMissingCriticalElements (p : Str) : Nat :=
  (if hasContext p then 0 else 1) + (if hasTechnicalDetails p then 0 else 1) +
  (if hasSuccessCriteria p then 0 else 1) + (if hasUserNeeds p then 0 else 1) +
  (if hasExpectedOutput p then 0 else 1)

-- Data model of the engine.

inductive FormalityLevel
  | formal
  | casual
  | technical
  | unspecified
deriving DecidableEq

inductive Rating
  | excellent
  | good
  | needsImprovement
  | poor
deriving DecidableEq

inductive ComponentTag
  | C
  | O
  | S
  | T
  | A
  | R
deriving DecidableEq

inductive OptimizerMode
  | fast
  | deep
deriving DecidableEq

structure ContextAnalysis where
  score : Nat
  hasBackground : Bool
  hasConstraints : Bool
  situationClarity : Nat
  issues : List Str
  suggestions : List Str
deriving DecidableEq

structure ObjectiveAnalysis where
  score : Nat
  goalClarity : Bool
  measurable : Bool
  achievable : Bool
  clarityScore : Nat
  issues : List Str
  suggestions : List Str
deriving DecidableEq

structure StyleAnalysis where
  score : Nat
  formatSpecified : Bool
  structureDefined : Bool
  presentationClear : Bool
  issues : List Str
  suggestions : List Str
deriving DecidableEq

structure ToneAnalysis where
  score : Nat
  toneSpecified : Bool
  voiceConsistency : Bool
  formalityLevel : FormalityLevel
  issues : List Str
  suggestions : List Str
deriving DecidableEq

structure AudienceAnalysis where
  score : Nat
  audienceSpecified : Bool
  skillLevelDefined : Bool
  needsAddressed : Bool
  issues : List Str
  suggestions : List Str
deriving DecidableEq

structure ResponseAnalysis where
  score : Nat
  outputFormatClear : Bool
  deliverablesSpecified : Bool
  examplesProvided : Bool
  issues : List Str
  suggestions : List Str
deriving DecidableEq

structure ChangeRecord where
  component : ComponentTag
  change : Str
deriving DecidableEq

structure TriageResult where
  needsDeepAnalysis : Bool
  reasons : List Str
deriving DecidableEq

/-- The analysis record handed to the aggregator and synthesizer
(`tone`/`audience`/`response` only present in deep mode). -/
structure COSTARAnalysis where
  context : ContextAnalysis
  objective : ObjectiveAnalysis
  style : StyleAnalysis
  tone : Option ToneAnalysis
  audience : Option AudienceAnalysis
  response : Option ResponseAnalysis
deriving DecidableEq

structure COSTARScore where
  overall : Int
  context : Nat
  objective : Nat
  style : Nat
  tone : Option Nat
  audience : Option Nat
  response : Option Nat
  rating : Rating
deriving DecidableEq

structure COSTARResult where
  context : ContextAnalysis
  objective : ObjectiveAnalysis
  style : StyleAnalysis
  tone : Option ToneAnalysis
  audience : Option AudienceAnalysis
  response : Option ResponseAnalysis
  overallScore : Int
  improvedPrompt : Str
  changesSummary : List ChangeRecord
deriving DecidableEq

def apos : Char := Char.ofNat 39

/-- The keyword `you're working` (apostrophe spliced in). -/
def youreWorking : Str := ("you").toList ++ [apos] ++ ("re working").toList

-- Per-component weighted trait sums, clamped by `Math.min(100, score)`.

def contextScoreVal (hasBackground hasConstraints hasTech : Bool) : Nat :=
  Nat.min 100 ((if hasBackground then 50 else 0) + (if hasConstraints then 30 else 0) +
    (if hasTech then 20 else 0))

def objectiveScoreVal (goalClarity measurable achievable : Bool) : Nat :=
  Nat.min 100 ((if goalClarity then 40 else 0) + (if measurable then 30 else 0) +
    (if achievable then 30 else 0))

def styleScoreVal (formatSpecified structureDefined presentationClear : Bool) : Nat :=
  Nat.min 100 ((if formatSpecified then 40 else 0) + (if structureDefined then 35 else 0) +
    (if presentationClear then 25 else 0))

def toneScoreVal (toneSpecified voiceConsistency formalityKnown : Bool) : Nat :=
  Nat.min 100 ((if toneSpecified then 50 else 0) + (if voiceConsistency then 25 else 0) +
    (if formalityKnown then 25 else 0))

def audienceScoreVal (audienceSpecified skillLevelDefined needsAddressed : Bool) : Nat :=
  Nat.min 100 ((if audienceSpecified then 40 else 0) + (if skillLevelDefined then 35 else 0) +
    (if needsAddressed then 25 else 0))

def responseScoreVal (outputFormatClear deliverablesSpecified examplesProvided : Bool) : Nat :=
  Nat.min 100 ((if outputFormatClear then 40 else 0) + (if deliverablesSpecified then 40 else 0) +
    (if examplesProvided then 20 else 0))

/-- `analyzeContext` of the source. -/
def analyzeContext (prompt : Str) : ContextAnalysis :=
  let hasBackground :=
    testWord (kws ["background", "context", "currently", "existing", "situation",
      "given that", "considering"]) prompt ||
    testWord (("you are").toList :: youreWorking :: kws ["the project", "this is"]) prompt
  let hasConstraints :=
    testWord (kws ["constraint", "limitation", "requirement", "must", "cannot",
      "should not", "restricted"]) prompt ||
    testWord (kws ["using", "with", "without", "requires", "needs"]) prompt
  let issues :=
    (if !hasBackground then [("No background or situational context provided").toList] else []) ++
    (if !hasConstraints then [("Constraints or requirements not specified").toList] else [])
  let suggestions :=
    (if !hasBackground then
      [("[C] Add background: Explain the current situation or problem context").toList]
     else []) ++
    (if !hasConstraints then
      [("[C] Specify constraints: Technologies, limitations, or requirements that apply").toList]
     else [])
  let situationClarity :=
    (if hasBackground then 50 else 0) + (if hasConstraints then 30 else 0) +
    (if hasTechnicalDetails prompt then 20 else 0)
  { score := contextScoreVal hasBackground hasConstraints (hasTechnicalDetails prompt)
    hasBackground := hasBackground
    hasConstraints := hasConstraints
    situationClarity := situationClarity
    issues := issues
    suggestions := suggestions }

/-- `analyzeObjective` of the source. -/
def analyzeObjective (prompt : Str) : ObjectiveAnalysis :=
  let goalClarity :=
    testStartWord (kws ["create", "build", "develop", "implement", "add", "update",
      "fix", "refactor", "design", "generate"]) (jsTrim prompt) ||
    testWord (kws ["objective", "goal", "purpose", "aim", "want to", "need to"]) prompt
  let measurable :=
    hasSuccessCriteria prompt ||
    testWord (kws ["measure", "metric", "complete when", "done when", "success"]) prompt
  let achievable := !hasUnrealisticScope prompt
  let issues :=
    (if !goalClarity then [("Goal or objective not clearly stated").toList] else []) ++
    (if !measurable then [("Objective not measurable").toList] else []) ++
    (if !achievable then [("Objective may be too broad or unrealistic").toList] else [])
  let suggestions :=
    (if !goalClarity then
      [("[O] State objective clearly: Use action verbs (create, build, implement)").toList]
     else []) ++
    (if !measurable then
      [("[O] Make objective measurable: Define what success looks like").toList] else []) ++
    (if !achievable then
      [("[O] Refine scope: Break down into achievable, focused goal").toList] else [])
  let clarityScore :=
    (if goalClarity then 40 else 0) + (if measurable then 30 else 0) +
    (if achievable then 30 else 0)
  { score := objectiveScoreVal goalClarity measurable achievable
    goalClarity := goalClarity
    measurable := measurable
    achievable := achievable
    clarityScore := clarityScore
    issues := issues
    suggestions := suggestions }

/-- `analyzeStyle` of the source. -/
def analyzeStyle (prompt : Str) : StyleAnalysis :=
  let formatSpecified :=
    testWord (kws ["format", "markdown", "json", "code", "list", "table", "bullet",
      "numbered", "xml", "yaml"]) prompt ||
    testWord (kws ["provide as", "structure as", "present as", "organize"]) prompt
  let structureDefined :=
    testWord (kws ["section", "heading", "organize", "structure", "step", "phase",
      "part"]) prompt ||
    testWord (kws ["include", "contain", "with", "having"]) prompt
  let presentationClear :=
    formatSpecified &&
      (structureDefined || testWord (kws ["example", "sample", "like", "such as"]) prompt)
  let issues :=
    (if !formatSpecified then [("Output format not specified").toList] else []) ++
    (if !structureDefined then [("Structure or organization not defined").toList] else [])
  let suggestions :=
    (if !formatSpecified then
      [("[S] Specify format: Define how output should be presented (markdown, code, list)").toList]
     else []) ++
    (if !structureDefined then
      [("[S] Define structure: Specify how information should be organized").toList] else []) ++
    (if !presentationClear then
      [("[S] Clarify presentation: Add examples or specify organization preferences").toList]
     else [])
  { score := styleScoreVal formatSpecified structureDefined presentationClear
    formatSpecified := formatSpecified
    structureDefined := structureDefined
    presentationClear := presentationClear
    issues := issues
    suggestions := suggestions }

/-- `analyzeTone` of the source (deep mode only). -/
def analyzeTone (prompt : Str) : ToneAnalysis :=
  let toneSpecified :=
    testWord (kws ["tone", "voice", "style", "formal", "informal", "casual",
      "professional", "friendly", "technical"]) prompt
  let voiceConsistency :=
    testWord (kws ["consistent", "throughout", "maintain", "keep"]) prompt && toneSpecified
  let formalityLevel : FormalityLevel :=
    if testWord (kws ["formal", "professional", "business"]) prompt then .formal
    else if testWord (kws ["casual", "friendly", "conversational", "informal"]) prompt then .casual
    else if testWord (kws ["technical", "precise", "expert", "developer"]) prompt then .technical
    else .unspecified
  let issues :=
    if !toneSpecified then [("Tone or voice not specified").toList] else []
  let suggestions :=
    (if !toneSpecified then
      [("[T] Specify tone: Define desired communication style (professional, casual, technical)").toList]
     else []) ++
    (if formalityLevel = .unspecified && toneSpecified then
      [("[T] Clarify formality: Specify whether formal, casual, or technical tone is preferred").toList]
     else [])
  { score := toneScoreVal toneSpecified voiceConsistency (formalityLevel ≠ .unspecified)
    toneSpecified := toneSpecified
    voiceConsistency := voiceConsistency
    formalityLevel := formalityLevel
    issues := issues
    suggestions := suggestions }

/-- `analyzeAudience` of the source (deep mode only). -/
def analyzeAudience (prompt : Str) : AudienceAnalysis :=
  let audienceSpecified :=
    testWord (kws ["for", "target", "audience", "user", "developer", "beginner",
      "expert", "senior", "junior", "team"]) prompt ||
    testWord (kws ["who will", "intended for", "designed for"]) prompt
  let skillLevelDefined :=
    testWord (kws ["beginner", "intermediate", "advanced", "expert", "senior",
      "junior", "novice", "experienced"]) prompt ||
    testWord (kws ["familiar with", "knowledge of", "assumes"]) prompt
  let needsAddressed :=
    audienceSpecified &&
      (skillLevelDefined || testWord (kws ["needs", "requires", "wants", "looking for"]) prompt)
  let issues :=
    if !audienceSpecified then [("Target audience not specified").toList] else []
  let suggestions :=
    (if !audienceSpecified then
      [("[A] Define audience: Specify who will use this (developers, beginners, experts)").toList]
     else []) ++
    (if !skillLevelDefined && audienceSpecified then
      [("[A] Specify skill level: Define expertise level of target audience").toList] else []) ++
    (if !needsAddressed && audienceSpecified then
      [("[A] Address needs: Consider specific needs of the target audience").toList] else [])
  { score := audienceScoreVal audienceSpecified skillLevelDefined needsAddressed
    audienceSpecified := audienceSpecified
    skillLevelDefined := skillLevelDefined
    needsAddressed := needsAddressed
    issues := issues
    suggestions := suggestions }

/-- `analyzeResponse` of the source (deep mode only). -/
def analyzeResponse (prompt : Str) : ResponseAnalysis :=
  let outputFormatClear :=
    testWord (kws ["output", "result", "deliverable", "return", "provide",
      "generate"]) prompt ||
    hasExpectedOutput prompt
  let deliverablesSpecified :=
    testWord (kws ["deliverable", "include", "provide", "contain", "with",
      "having"]) prompt &&
    testWord (kws ["code", "documentation", "test", "example", "file"]) prompt
  let examplesProvided :=
    testWord (kws ["example", "sample", "such as", "like", "e.g.", "for instance",
      "similar to"]) prompt
  let issues :=
    (if !outputFormatClear then [("Expected output format not clear").toList] else []) ++
    (if !deliverablesSpecified then [("Specific deliverables not listed").toList] else [])
  let suggestions :=
    (if !outputFormatClear then
      [("[R] Clarify output: Specify what should be returned or delivered").toList] else []) ++
    (if !deliverablesSpecified then
      [("[R] List deliverables: Specify concrete outputs (code, docs, tests, examples)").toList]
     else []) ++
    (if !examplesProvided then
      [("[R] Provide examples: Include sample outputs or references").toList] else [])
  { score := responseScoreVal outputFormatClear deliverablesSpecified examplesProvided
    outputFormatClear := outputFormatClear
    deliverablesSpecified := deliverablesSpecified
    examplesProvided := examplesProvided
    issues := issues
    suggestions := suggestions }

-- Exact model of IEEE-754 binary64 arithmetic: a double is a dyadic rational
-- `m * 2 ^ e`; every operation computes its exact result and then rounds the
-- mantissa to 53 bits, round to nearest, ties to even.

structure Dyadic where
  m : Int
  e : Int
deriving DecidableEq

def n52 : Nat := 4503599627370496

def n53 : Nat := 9007199254740992

def downShifts : Nat → Nat → Nat
  | 0, _ => 0
  | fuel + 1, a => if n53 ≤ a then downShifts fuel (a / 2) + 1 else 0

/-- Round a dyadic value to the nearest binary64 value (ties to even). -/
def flD (x : Dyadic) : Dyadic :=
  let a := x.m.natAbs
  if a < n53 then x
  else
    let k := downShifts 200 a
    let q := a / 2 ^ k
    let r := a % 2 ^ k
    let h := 2 ^ (k - 1)
    let mm := if r < h then q else if h < r then q + 1 else if q % 2 = 0 then q else q + 1
    ⟨if x.m < 0 then -(mm : Int) else (mm : Int), x.e + (k : Int)⟩

def ratShifts : Nat → Nat → Nat → Nat
  | 0, _, _ => 0
  | fuel + 1, a, b => if a / b < n52 then ratShifts fuel (a * 2) b + 1 else 0

/-- The binary64 value of a positive decimal literal `a / b` smaller than
`2 ^ 52`: round to nearest, ties to even. -/
def flRat (a b : Nat) : Dyadic :=
  let k := ratShifts 200 a b
  let n := a * 2 ^ k
  let q := n / b
  let r := n % b
  let mm := if 2 * r < b then q else if b < 2 * r then q + 1 else if q % 2 = 0 then q else q + 1
  ⟨(mm : Int), -(k : Int)⟩

def dyMul (x y : Dyadic) : Dyadic := ⟨x.m * y.m, x.e + y.e⟩

def dyAdd (x y : Dyadic) : Dyadic :=
  if x.e ≤ y.e then ⟨x.m + y.m * 2 ^ (y.e - x.e).toNat, x.e⟩
  else ⟨x.m * 2 ^ (x.e - y.e).toNat + y.m, y.e⟩

/-- Double-precision multiplication. -/
def dblMul (x y : Dyadic) : Dyadic := flD (dyMul x y)

/-- Double-precision addition. -/
def dblAdd (x y : Dyadic) : Dyadic := flD (dyAdd x y)

/-- Integers (such as the component scores) are exact doubles. -/
def natToDbl (n : Nat) : Dyadic := ⟨(n : Int), 0⟩

/-- The double value of the JS literal `0.35`. -/
def lit035 : Dyadic := flRat 35 100

/-- The double value of the JS literal `0.3`. -/
def lit030 : Dyadic := flRat 30 100

/-- The double value of the JS literal `0.2`. -/
def lit020 : Dyadic := flRat 20 100

/-- The double value of the JS literal `0.15`. -/
def lit015 : Dyadic := flRat 15 100

/-- `n ≤ x` for an integer `n` and a double `x` (exact comparison). -/
def dyLE (n : Int) (x : Dyadic) : Bool :=
  if 0 ≤ x.e then decide (n ≤ x.m * 2 ^ x.e.toNat) else decide (n * 2 ^ (-x.e).toNat ≤ x.m)

/-- `Math.round` on a double: nearest integer, ties rounded towards positive
infinity. -/
def jsRoundD (x : Dyadic) : Int :=
  if 0 ≤ x.e then x.m * 2 ^ x.e.toNat
  else Int.fdiv (x.m + 2 ^ ((-x.e).toNat - 1)) (2 ^ (-x.e).toNat)

/-- Round half up on an exact rational value: the idealized exact-arithmetic
reading of the spec sentence about rounding. -/
def jsRound (q : ℚ) : Int := Int.floor (q + 1 / 2)

/-- The unrounded weighted composite of `calculateCOSTARScore` in fast mode,
computed in double precision, left to right. -/
def fastOverall (c o s : Nat) : Dyadic :=
  dblAdd (dblAdd (dblMul (natToDbl c) lit035) (dblMul (natToDbl o) lit035))
    (dblMul (natToDbl s) lit030)

/-- The unrounded weighted composite of `calculateCOSTARScore` in deep mode,
computed in double precision, left to right. -/
def deepOverall (c o s t a r : Nat) : Dyadic :=
  dblAdd (dblAdd (dblAdd (dblAdd (dblAdd (dblMul (natToDbl c) lit020)
    (dblMul (natToDbl o) lit020)) (dblMul (natToDbl s) lit015))
    (dblMul (natToDbl t) lit015)) (dblMul (natToDbl a) lit015))
    (dblMul (natToDbl r) lit015)

/-- The rating lookup of `calculateCOSTARScore`, applied to the unrounded
composite. -/
def ratingOf (overall : Dyadic) : Rating :=
  if dyLE 80 overall then .excellent
  else if dyLE 60 overall then .good
  else if dyLE 40 overall then .needsImprovement
  else .poor

/-- `calculateCOSTARScore` of the source. -/
def calculateCOSTARScore (a : COSTARAnalysis) : COSTARScore :=
  let overall : Dyadic :=
    match a.tone, a.audience, a.response with
    | some t, some au, some r =>
      deepOverall a.context.score a.objective.score a.style.score t.score au.score r.score
    | _, _, _ => fastOverall a.context.score a.objective.score a.style.score
  { overall := jsRoundD overall
    context := a.context.score
    objective := a.objective.score
    style := a.style.score
    tone := a.tone.map fun t => t.score
    audience := a.audience.map fun au => au.score
    response := a.response.map fun r => r.score
    rating := ratingOf overall }

/-- `performTriage` of the source. -/
def performTriage (prompt : Str) (costarResult : Option COSTARResult) : TriageResult :=
  match costarResult with
  | some cr =>
    let reasons :=
      (if cr.context.score < 60 then
        [("Context score below 60% - needs richer background information").toList] else []) ++
      (if cr.objective.score < 60 then
        [("Objective score below 60% - goal needs clarification").toList] else []) ++
      (if cr.style.score < 50 then
        [("Style score below 50% - output format not well-defined").toList] else [])
    { needsDeepAnalysis := !reasons.isEmpty, reasons := reasons }
  | none =>
    let reasons :=
      (if (jsTrim prompt).length < 20 then
        [("Prompt is very short (< 20 characters)").toList] else []) ++
      (if 3 ≤ countMissingCriticalElements prompt then
        [("Missing ").toList ++ natToStr (countMissingCriticalElements prompt) ++
          (" critical elements").toList]
       else [])
    { needsDeepAnalysis := !reasons.isEmpty, reasons := reasons }

-- The synthesizer's extraction helpers.

/-- Backtracking step of `/…:\s*([^\n]+)/` when the greedy `\s*` has consumed
everything to the end of the string: the capture becomes the last whitespace
character that is not a newline, if any. -/
def backtrackWS (m : Str) : Option Str :=
  match m.reverse.dropWhile fun c => c == '\n' with
  | [] => none
  | c :: _ => some [c]

/-- Match `:\s*([^\n]+)` at the head of the string and return the capture. -/
def colonWsBody : Str → Option Str
  | [] => none
  | c :: rest =>
    if c = ':' then
      let m := rest.takeWhile isJSSpace
      let r := rest.drop m.length
      if r.isEmpty then backtrackWS m else some (r.takeWhile fun x => !(x == '\n'))
    else none

def matchKwColonAt (kw : Str) (s : Str) : Option Str :=
  if lowerPrefixEq kw s then colonWsBody (s.drop kw.length) else none

/-- Leftmost match of `/(kw1|kw2|…):\s*([^\n]+)/i`, returning the second
capture group; alternatives are tried in order at each position. -/
def scanKwColon (kwList : List Str) : Str → Option Str
  | [] => kwList.findSome? fun kw => matchKwColonAt kw []
  | c :: cs =>
    match kwList.findSome? fun kw => matchKwColonAt kw (c :: cs) with
    | some g => some g
    | none => scanKwColon kwList cs

/-- `extractOrInferTechnical` of the source. -/
def extractOrInferTechnical (original : Str) : Str :=
  let techStack :=
    (if testSub [("react").toList] original then [("React").toList] else []) ++
    (if testSub [("typescript").toList] original then [("TypeScript").toList] else []) ++
    (if testSub [("node").toList] original then [("Node.js").toList] else []) ++
    (if testSub [("python").toList] original then [("Python").toList] else [])
  if techStack.length > 0 then
    ("- Technology stack: ").toList ++ joinCommaSpace techStack ++
      ("\n- [Add other constraints]").toList
  else ("- [Specify technologies, integrations, performance requirements]").toList

/-- `extractOrInferContext` of the source. -/
def extractOrInferContext (prompt : Str) : Str :=
  match scanKwColon (kws ["background", "context", "currently", "given", "situation"]) prompt with
  | some g => g
  | none =>
    if hasTechnicalDetails prompt then
      ("Working in a development environment with ").toList ++ extractOrInferTechnical prompt
    else ("Development project requiring implementation of new functionality").toList

def actionVerbs : List Str :=
  kws ["create", "build", "develop", "implement", "add", "update", "fix",
    "refactor", "design", "generate"]

/-- Match `/^(create|build|…)\s+(.+)/i` and return `match[1] ++ " " ++ match[2]`
(captures keep the original casing; `.` excludes line terminators, and the
greedy `\s+` backtracks when it reaches the end of the string). -/
def matchActionStart (p : Str) : Option Str :=
  actionVerbs.findSome? fun v =>
    if lowerPrefixEq v p then
      let after := p.drop v.length
      let m := after.takeWhile isJSSpace
      if m.isEmpty then none
      else
        let r := after.drop m.length
        if r.isEmpty then
          match (m.drop 1).reverse.dropWhile isLineTerm with
          | [] => none
          | c :: _ => some (p.take v.length ++ ' ' :: [c])
        else some (p.take v.length ++ ' ' :: r.takeWhile fun x => !isLineTerm x)
    else none

/-- `extractOrInferObjective` of the source. -/
def extractOrInferObjective (prompt : Str) : Str :=
  match matchActionStart prompt with
  | some s => s
  | none =>
    match scanKwColon (kws ["objective", "goal", "purpose"]) prompt with
    | some g => g
    | none =>
      let f := (splitNl prompt).headD []
      if f.isEmpty then prompt.take 100 else f

/-- `extractOrInferRequirements` of the source. -/
def extractOrInferRequirements (prompt : Str) : Str :=
  let lines := (splitNl prompt).filter fun l => !(jsTrim l).isEmpty
  if lines.length > 1 then
    joinNl ((lines.drop 1).map fun l => ("- ").toList ++ l)
  else ("- ").toList ++ prompt ++ ("\n- [Add specific requirements based on objective]").toList

/-- `extractToneGuidance` of the source. -/
def extractToneGuidance (prompt : Str) : Str :=
  if testSub [("professional").toList] prompt then ("Professional tone").toList
  else if testSub [("casual").toList] prompt then ("Casual, friendly tone").toList
  else if testSub [("technical").toList] prompt then ("Technical, precise tone").toList
  else ("Professional, clear tone").toList

/-- `extractAudienceDefinition` of the source. -/
def extractAudienceDefinition (prompt : Str) : Str :=
  if testSub [("beginner").toList] prompt then
    ("Target audience: Beginners with basic programming knowledge").toList
  else if testSub (kws ["senior", "expert"]) prompt then
    ("Target audience: Senior developers with deep expertise").toList
  else ("Target audience: Intermediate to advanced developers").toList

/-- `extractDeliverables` of the source. -/
def extractDeliverables (prompt : Str) : Str :=
  let deliverables :=
    (if testSub [("code").toList] prompt then [("- Complete code implementation").toList] else []) ++
    (if testSub (kws ["documentation", "docs"]) prompt then [("- Documentation").toList] else []) ++
    (if testSub [("test").toList] prompt then [("- Test coverage").toList] else []) ++
    (if testSub [("example").toList] prompt then [("- Usage examples").toList] else [])
  if deliverables.length > 0 then joinNl deliverables else ("- [Specify deliverables]").toList

/-- The string built by `generateCOSTARImprovedPrompt` before the final
Requirements body and the final `.trim()`. -/
def costarImprovedHead (original : Str) (a : COSTARAnalysis) : Str :=
  ("## CONTEXT\n\n").toList ++
  ((if !a.context.hasBackground then
      ("Background: ").toList ++ extractOrInferContext original
    else extractOrInferContext original) ++ ("\n\n").toList ++
   (if !a.context.hasConstraints && hasTechnicalDetails original then
      ("Constraints: ").toList ++ extractOrInferTechnical original ++ ("\n\n").toList
    else [])) ++
  ("## OBJECTIVE\n\n").toList ++
  (extractOrInferObjective original ++ ("\n\n").toList) ++
  ("## STYLE\n\n").toList ++
  ((if !a.style.formatSpecified then
      ("Format: Provide response as structured, well-organized output\n").toList else []) ++
   (if !a.style.structureDefined then
      ("Structure: Organize with clear sections and headings\n").toList else []) ++
   ("\n").toList) ++
  (match a.tone with
   | some t =>
     ("## TONE\n\n").toList ++
     (if !t.toneSpecified then
        ("Use a professional, technical tone appropriate for developers\n\n").toList
      else extractToneGuidance original ++ ("\n\n").toList)
   | none => []) ++
  (match a.audience with
   | some au =>
     ("## AUDIENCE\n\n").toList ++
     (if !au.audienceSpecified then
        ("Target audience: Senior developers with expertise in the relevant technology stack\n\n").toList
      else extractAudienceDefinition original ++ ("\n\n").toList)
   | none => []) ++
  (match a.response with
   | some r =>
     ("## RESPONSE\n\n").toList ++
     (("Expected deliverables:\n").toList ++
      (if !r.deliverablesSpecified then
         ("- Complete implementation\n- Documentation\n- Test coverage\n\n").toList
       else extractDeliverables original ++ ("\n\n").toList))
   | none => []) ++
  ("---\n\n").toList ++
  ("# Requirements\n\n").toList

/-- The string built by `generateCOSTARImprovedPrompt` before the final `.trim()`. -/
def costarImprovedRaw (original : Str) (a : COSTARAnalysis) : Str :=
  costarImprovedHead original a ++ extractOrInferRequirements original

/-- `generateCOSTARImprovedPrompt` of the source. -/
def generateCOSTARImprovedPrompt (original : Str) (a : COSTARAnalysis) : Str :=
  jsTrim (costarImprovedRaw original a)

/-- `generateCOSTARChangesSummary` of the source (the `improved` argument is
unused there as well). -/
def generateCOSTARChangesSummary (_original _improved : Str) (a : COSTARAnalysis) :
    List ChangeRecord :=
  let changes :=
    (if !a.context.hasBackground then
      [⟨ComponentTag.C, ("Added background context and situational details").toList⟩] else []) ++
    (if !a.context.hasConstraints then
      [⟨ComponentTag.C, ("Specified constraints and requirements").toList⟩] else []) ++
    (if !a.objective.goalClarity then
      [⟨ComponentTag.O, ("Clarified objective with clear goal statement").toList⟩] else []) ++
    (if !a.objective.measurable then
      [⟨ComponentTag.O, ("Made objective measurable with success criteria").toList⟩] else []) ++
    (if !a.style.formatSpecified then
      [⟨ComponentTag.S, ("Specified output format and presentation style").toList⟩] else []) ++
    (if !a.style.structureDefined then
      [⟨ComponentTag.S, ("Defined structure and organization approach").toList⟩] else []) ++
    (match a.tone with
     | some t =>
       if !t.toneSpecified then
         [⟨ComponentTag.T, ("Added tone guidance for appropriate communication style").toList⟩]
       else []
     | none => []) ++
    (match a.audience with
     | some au =>
       if !au.audienceSpecified then
         [⟨ComponentTag.A, ("Defined target audience and skill level").toList⟩]
       else []
     | none => []) ++
    (match a.response with
     | some r =>
       if !r.outputFormatClear then
         [⟨ComponentTag.R, ("Specified expected deliverables and response format").toList⟩]
       else []
     | none => [])
  if changes.isEmpty then
    [⟨ComponentTag.O, ("Structured the prompt with COSTAR framework sections").toList⟩]
  else changes

/-- `applyCOSTARFramework` of the source. -/
def applyCOSTARFramework (prompt : Str) (mode : OptimizerMode) : COSTARResult :=
  let context := analyzeContext prompt
  let objective := analyzeObjective prompt
  let style := analyzeStyle prompt
  let tone : Option ToneAnalysis :=
    match mode with
    | .deep => some (analyzeTone prompt)
    | .fast => none
  let audience : Option AudienceAnalysis :=
    match mode with
    | .deep => some (analyzeAudience prompt)
    | .fast => none
  let response : Option ResponseAnalysis :=
    match mode with
    | .deep => some (analyzeResponse prompt)
    | .fast => none
  let a : COSTARAnalysis := ⟨context, objective, style, tone, audience, response⟩
  let improvedPrompt := generateCOSTARImprovedPrompt prompt a
  { context := context
    objective := objective
    style := style
    tone := tone
    audience := audience
    response := response
    overallScore := (calculateCOSTARScore a).overall
    improvedPrompt := improvedPrompt
    changesSummary := generateCOSTARChangesSummary prompt improvedPrompt a }

-- Substring occurrence and ordered-occurrence machinery.

/-- Leftmost split of `s` around an occurrence of `pat`. -/
def splitAtOccur (pat : Str) : Str → Option (Str × Str)
  | [] => if prefixEq pat [] then some ([], []) else none
  | c :: cs =>
    if prefixEq pat (c :: cs) then some ([], (c :: cs).drop pat.length)
    else (splitAtOccur pat cs).map fun ab => (c :: ab.1, ab.2)

/-- `pat` occurs as a contiguous substring of `s`. -/
def containsStr (pat s : Str) : Bool := (splitAtOccur pat s).isSome

/-- The patterns all occur in `s`, in the given order, without overlapping. -/
def InfixChain : List Str → Str → Prop
  | [], _ => True
  | p :: ps, s => ∃ a b, s = a ++ p ++ b ∧ InfixChain ps b

def occursChainB : List Str → Str → Bool
  | [], _ => true
  | p :: ps, s =>
    match splitAtOccur p s with
    | none => false
    | some ab => occursChainB ps ab.2

theorem prefixEq_sound : ∀ (pat s : Str), prefixEq pat s = true → s = pat ++ s.drop pat.length
  | [], s, _ => by simp
  | p :: ps, [], h => by simp [prefixEq] at h
  | p :: ps, c :: cs, h => by
    simp only [prefixEq, Bool.and_eq_true, beq_iff_eq] at h
    obtain ⟨h1, h2⟩ := h
    simpa [h1] using prefixEq_sound ps cs h2

theorem splitAtOccur_sound :
    ∀ (pat s a b : Str), splitAtOccur pat s = some (a, b) → s = a ++ pat ++ b
  | pat, [], a, b, h => by
    by_cases hp : prefixEq pat [] = true
    · have hpat := prefixEq_sound pat [] hp
      simp [splitAtOccur, hp] at h
      obtain ⟨ha, hb⟩ := h
      subst ha
      subst hb
      simpa using hpat
    · simp [splitAtOccur, hp] at h
  | pat, c :: cs, a, b, h => by
    by_cases hp : prefixEq pat (c :: cs) = true
    · have hpat := prefixEq_sound pat (c :: cs) hp
      simp [splitAtOccur, hp] at h
      obtain ⟨ha, hb⟩ := h
      subst ha
      subst hb
      simpa using hpat
    · simp [splitAtOccur, hp] at h
      obtain ⟨x, hrec, hx⟩ := h
      have hs := splitAtOccur_sound pat cs x b hrec
      subst hx
      simp [hs]

theorem occursChainB_sound :
    ∀ (ps : List Str) (s : Str), occursChainB ps s = true → InfixChain ps s
  | [], s, _ => trivial
  | p :: ps, s, h => by
    unfold occursChainB at h
    cases hsp : splitAtOccur p s with
    | none => rw [hsp] at h; simp at h
    | some ab =>
      rw [hsp] at h
      exact ⟨ab.1, ab.2, splitAtOccur_sound p s ab.1 ab.2 (by rw [hsp]), occursChainB_sound ps ab.2 h⟩

theorem infixChain_cons (p : Str) (ps : List Str) (rest : Str) (h : InfixChain ps rest) :
    InfixChain (p :: ps) (p ++ rest) :=
  ⟨[], rest, by simp, h⟩

theorem infixChain_skip (ps : List Str) (x s : Str) (h : InfixChain ps s) :
    InfixChain ps (x ++ s) := by
  cases ps with
  | nil => trivial
  | cons p ps =>
    obtain ⟨a, b, hs, hrest⟩ := h
    exact ⟨x ++ a, b, by rw [hs]; simp, hrest⟩

theorem infixChain_block (p blk tailp : Str) (ps : List Str) (rest : Str)
    (heq : blk = p ++ tailp) (h : InfixChain ps rest) : InfixChain (p :: ps) (blk ++ rest) := by
  rw [heq, List.append_assoc]
  exact infixChain_cons p ps (tailp ++ rest) (infixChain_skip ps tailp rest h)

-- Lemmas about `trim` needed to reason about the synthesized prompt.

theorem dropWhile_append_left (p : Char → Bool) (l₁ l₂ : Str) (h : l₁.dropWhile p ≠ []) :
    (l₁ ++ l₂).dropWhile p = l₁.dropWhile p ++ l₂ := by
  induction l₁ with
  | nil => simp at h
  | cons c cs ih =>
    by_cases hc : p c
    · simp only [List.dropWhile_cons, hc, if_true] at h ⊢
      simpa [hc] using ih h
    · simp [List.dropWhile_cons, hc]

theorem jsTrimEnd_append (a b : Str) (hb : ∃ x ∈ b, isJSSpace x = false) :
    jsTrimEnd (a ++ b) = a ++ jsTrimEnd b := by
  unfold jsTrimEnd
  have hne : b.reverse.dropWhile isJSSpace ≠ [] := by
    intro hnil
    obtain ⟨x, hx, hxf⟩ := hb
    have : ∀ y ∈ b.reverse, isJSSpace y = true := by
      intro y hy
      exact List.dropWhile_eq_nil_iff.mp hnil y hy
    have h2 := this x (List.mem_reverse.mpr hx)
    rw [h2] at hxf
    simp at hxf
  rw [List.reverse_append, dropWhile_append_left _ _ _ hne, List.reverse_append,
    List.reverse_reverse]

theorem jsTrimStart_cons (c : Char) (s : Str) (h : isJSSpace c = false) :
    jsTrimStart (c :: s) = c :: s := by
  simp [jsTrimStart, List.dropWhile_cons, h]

/-- `trim` of a string that starts with a non-space character and ends with a
part containing a non-space character. -/
theorem jsTrim_decomp (c : Char) (x req : Str) (hc : isJSSpace c = false)
    (hreq : ∃ y ∈ req, isJSSpace y = false) :
    jsTrim ((c :: x) ++ req) = (c :: x) ++ jsTrimEnd req := by
  unfold jsTrim
  rw [jsTrimEnd_append (c :: x) req hreq]
  exact jsTrimStart_cons c (x ++ jsTrimEnd req) hc

theorem joinNl_cons (x : Str) (xs : List Str) : ∃ r, joinNl (x :: xs) = x ++ r := by
  cases xs with
  | nil => exact ⟨[], by simp [joinNl]⟩
  | cons y ys => exact ⟨'\n' :: joinNl (y :: ys), rfl⟩

/-- The Requirements body always starts with `- `. -/
theorem extractOrInferRequirements_shape (p : Str) :
    ∃ t, extractOrInferRequirements p = '-' :: ' ' :: t := by
  unfold extractOrInferRequirements
  by_cases h : ((splitNl p).filter fun l => !(jsTrim l).isEmpty).length > 1
  · simp only [h, if_true]
    cases hd : ((splitNl p).filter fun l => !(jsTrim l).isEmpty).drop 1 with
    | nil =>
      exfalso
      have hlen := congrArg List.length hd
      simp [List.length_drop] at hlen
      omega
    | cons x xs =>
      simp only [List.map_cons]
      obtain ⟨r, hr⟩ := joinNl_cons (("- ").toList ++ x) (xs.map fun l => ("- ").toList ++ l)
      exact ⟨x ++ r, by rw [hr]; rfl⟩
  · simp only [h, if_false]
    exact ⟨p ++ ("\n- [Add specific requirements based on objective]").toList, rfl⟩

theorem jsTrim_decomp2 (x req : Str) (hx : ∃ c x2, x = c :: x2 ∧ isJSSpace c = false)
    (hreq : ∃ y ∈ req, isJSSpace y = false) : jsTrim (x ++ req) = x ++ jsTrimEnd req := by
  obtain ⟨c, x2, rfl, hc⟩ := hx
  exact jsTrim_decomp c x2 req hc hreq

/-- The final `.trim()` keeps the whole section skeleton: only trailing
whitespace inside the Requirements body can be removed. -/
theorem improved_eq (original : Str) (a : COSTARAnalysis) :
    generateCOSTARImprovedPrompt original a =
      costarImprovedHead original a ++ jsTrimEnd (extractOrInferRequirements original) := by
  unfold generateCOSTARImprovedPrompt costarImprovedRaw
  apply jsTrim_decomp2
  · exact ⟨'#', ("# CONTEXT\n\n").toList ++
      (costarImprovedHead original a).drop (("## CONTEXT\n\n").toList.length), by rfl, by decide⟩
  · obtain ⟨tl, htl⟩ := extractOrInferRequirements_shape original
    exact ⟨'-', by rw [htl]; exact List.mem_cons_self _ _, by decide⟩

/-- In deep mode the synthesized prompt carries all six component headers in
COSTAR order, followed by the Requirements header. -/
theorem costarChainDeep (original : Str) (ctx : ContextAnalysis) (obj : ObjectiveAnalysis)
    (sty : StyleAnalysis) (t : ToneAnalysis) (au : AudienceAnalysis) (r : ResponseAnalysis) :
    InfixChain [("## CONTEXT").toList, ("## OBJECTIVE").toList, ("## STYLE").toList,
      ("## TONE").toList, ("## AUDIENCE").toList, ("## RESPONSE").toList,
      ("# Requirements").toList]
      (generateCOSTARImprovedPrompt original ⟨ctx, obj, sty, some t, some au, some r⟩) := by
  rw [improved_eq]
  rw [show costarImprovedHead original ⟨ctx, obj, sty, some t, some au, some r⟩ =
    ("## CONTEXT\n\n").toList ++
    ((if !ctx.hasBackground then ("Background: ").toList ++ extractOrInferContext original
      else extractOrInferContext original) ++ ("\n\n").toList ++
     (if !ctx.hasConstraints && hasTechnicalDetails original then
        ("Constraints: ").toList ++ extractOrInferTechnical original ++ ("\n\n").toList
      else [])) ++
    ("## OBJECTIVE\n\n").toList ++
    (extractOrInferObjective original ++ ("\n\n").toList) ++
    ("## STYLE\n\n").toList ++
    ((if !sty.formatSpecified then
        ("Format: Provide response as structured, well-organized output\n").toList else []) ++
     (if !sty.structureDefined then
        ("Structure: Organize with clear sections and headings\n").toList else []) ++
     ("\n").toList) ++
    (("## TONE\n\n").toList ++
     (if !t.toneSpecified then
        ("Use a professional, technical tone appropriate for developers\n\n").toList
      else extractToneGuidance original ++ ("\n\n").toList)) ++
    (("## AUDIENCE\n\n").toList ++
     (if !au.audienceSpecified then
        ("Target audience: Senior developers with expertise in the relevant technology stack\n\n").toList
      else extractAudienceDefinition original ++ ("\n\n").toList)) ++
    (("## RESPONSE\n\n").toList ++
     (("Expected deliverables:\n").toList ++
      (if !r.deliverablesSpecified then
         ("- Complete implementation\n- Documentation\n- Test coverage\n\n").toList
       else extractDeliverables original ++ ("\n\n").toList))) ++
    ("---\n\n").toList ++
    ("# Requirements\n\n").toList from rfl]
  simp only [List.append_assoc]
  refine infixChain_block _ _ _ _ _ (by rfl) ?_
  refine infixChain_skip _ _ _ ?_
  refine infixChain_skip _ _ _ ?_
  refine infixChain_skip _ _ _ ?_
  refine infixChain_block _ _ _ _ _ (by rfl) ?_
  refine infixChain_skip _ _ _ ?_
  refine infixChain_skip _ _ _ ?_
  refine infixChain_block _ _ _ _ _ (by rfl) ?_
  refine infixChain_skip _ _ _ ?_
  refine infixChain_skip _ _ _ ?_
  refine infixChain_skip _ _ _ ?_
  refine infixChain_block _ _ _ _ _ (by rfl) ?_
  refine infixChain_skip _ _ _ ?_
  refine infixChain_block _ _ _ _ _ (by rfl) ?_
  refine infixChain_skip _ _ _ ?_
  refine infixChain_block _ _ _ _ _ (by rfl) ?_
  refine infixChain_skip _ _ _ ?_
  refine infixChain_skip _ _ _ ?_
  refine infixChain_skip _ _ _ ?_
  refine infixChain_block _ _ _ _ _ (by rfl) ?_
  exact trivial

/-- In fast mode the synthesized prompt carries the three core component
headers in COSTAR order, followed by the Requirements header. -/
theorem costarChainFast (original : Str) (ctx : ContextAnalysis) (obj : ObjectiveAnalysis)
    (sty : StyleAnalysis) :
    InfixChain [("## CONTEXT").toList, ("## OBJECTIVE").toList, ("## STYLE").toList,
      ("# Requirements").toList]
      (generateCOSTARImprovedPrompt original ⟨ctx, obj, sty, none, none, none⟩) := by
  rw [improved_eq]
  rw [show costarImprovedHead original ⟨ctx, obj, sty, none, none, none⟩ =
    ("## CONTEXT\n\n").toList ++
    ((if !ctx.hasBackground then ("Background: ").toList ++ extractOrInferContext original
      else extractOrInferContext original) ++ ("\n\n").toList ++
     (if !ctx.hasConstraints && hasTechnicalDetails original then
        ("Constraints: ").toList ++ extractOrInferTechnical original ++ ("\n\n").toList
      else [])) ++
    ("## OBJECTIVE\n\n").toList ++
    (extractOrInferObjective original ++ ("\n\n").toList) ++
    ("## STYLE\n\n").toList ++
    ((if !sty.formatSpecified then
        ("Format: Provide response as structured, well-organized output\n").toList else []) ++
     (if !sty.structureDefined then
        ("Structure: Organize with clear sections and headings\n").toList else []) ++
     ("\n").toList) ++
    ([] : Str) ++ ([] : Str) ++ ([] : Str) ++
    ("---\n\n").toList ++
    ("# Requirements\n\n").toList from rfl]
  simp only [List.append_assoc, List.nil_append]
  refine infixChain_block _ _ _ _ _ (by rfl) ?_
  refine infixChain_skip _ _ _ ?_
  refine infixChain_skip _ _ _ ?_
  refine infixChain_skip _ _ _ ?_
  refine infixChain_block _ _ _ _ _ (by rfl) ?_
  refine infixChain_skip _ _ _ ?_
  refine infixChain_skip _ _ _ ?_
  refine infixChain_block _ _ _ _ _ (by rfl) ?_
  refine infixChain_skip _ _ _ ?_
  refine infixChain_skip _ _ _ ?_
  refine infixChain_skip _ _ _ ?_
  refine infixChain_skip _ _ _ ?_
  refine infixChain_block _ _ _ _ _ (by rfl) ?_
  exact trivial

theorem objectiveScoreVal_eq (g m a : Bool) :
    objectiveScoreVal g m a =
      (if g then 40 else 0) + (if m then 30 else 0) + (if a then 30 else 0) := by
  cases g <;> cases m <;> cases a <;> rfl

/-- Claim C2: with a supplied COSTAR analysis, triage recommends deep analysis
iff Context < 60 or Objective < 60 or Style < 50, with exactly one reason
string per failing threshold, and `needsDeepAnalysis` is true iff `reasons` is
non-empty. -/
theorem claim_C2 (p : Str) (cr : COSTARResult) :
    ((performTriage p (some cr)).needsDeepAnalysis = true ↔
      (cr.context.score < 60 ∨ cr.objective.score < 60 ∨ cr.style.score < 50)) ∧
    (performTriage p (some cr)).reasons =
      ((if cr.context.score < 60 then
          [("Context score below 60% - needs richer background information").toList] else []) ++
       (if cr.objective.score < 60 then
          [("Objective score below 60% - goal needs clarification").toList] else []) ++
       (if cr.style.score < 50 then
          [("Style score below 50% - output format not well-defined").toList] else [])) ∧
    ((performTriage p (some cr)).needsDeepAnalysis = true ↔
      (performTriage p (some cr)).reasons ≠ []) := by
  refine ⟨?_, rfl, ?_⟩ <;>
    by_cases h1 : cr.context.score < 60 <;> by_cases h2 : cr.objective.score < 60 <;>
      by_cases h3 : cr.style.score < 50 <;> simp [performTriage, h1, h2, h3]

/-- Claim C10: triage with a supplied analysis never reads the prompt text:
the result is identical for any two prompts. -/
theorem claim_C10 (p1 p2 : Str) (cr : COSTARResult) :
    performTriage p1 (some cr) = performTriage p2 (some cr) := rfl

/-- Claim C3 counterexample: on a prompt of raw length 24 whose trimmed length
is 14 and which misses only 2 of the 5 critical elements, the fallback triage
still recommends deep analysis (the code tests the trimmed length, not the raw
length as the claim states). -/
theorem claim_C3_counterexample :
    (performTriage (("issue api goal          ").toList) none).needsDeepAnalysis = true ∧
    ¬((("issue api goal          ").toList).length < 20 ∨
      3 ≤ countMissingCriticalElements (("issue api goal          ").toList)) :=
  ⟨by decide, by decide⟩

/-- Claim C3 amended: the fallback triage recommends deep analysis iff the
trimmed prompt length is below 20 or at least 3 of the five critical elements
are missing, with one reason string per triggered condition. -/
theorem claim_C3_amended (p : Str) :
    ((performTriage p none).needsDeepAnalysis = true ↔
      ((jsTrim p).length < 20 ∨ 3 ≤ countMissingCriticalElements p)) ∧
    (performTriage p none).reasons =
      ((if (jsTrim p).length < 20 then
          [("Prompt is very short (< 20 characters)").toList] else []) ++
       (if 3 ≤ countMissingCriticalElements p then
          [("Missing ").toList ++ natToStr (countMissingCriticalElements p) ++
            (" critical elements").toList]
        else [])) ∧
    ((performTriage p none).needsDeepAnalysis = true ↔ (performTriage p none).reasons ≠ []) := by
  refine ⟨?_, rfl, ?_⟩ <;>
    by_cases h1 : (jsTrim p).length < 20 <;>
      by_cases h2 : 3 ≤ countMissingCriticalElements p <;> simp [performTriage, h1, h2]

/-- Claim C5: the Objective analyzer sets `goalClarity` iff the trimmed prompt
starts with one of the ten action verbs or the prompt contains an
objective/goal keyword; `achievable` is the negation of the unrealistic-scope
check (the anchored full match, or length < 30 with an app/system/platform
word); and the score is 40·goalClarity + 30·measurable + 30·achievable. -/
theorem claim_C5 (p : Str) :
    ((analyzeObjective p).goalClarity =
      (testStartWord (kws ["create", "build", "develop", "implement", "add", "update",
        "fix", "refactor", "design", "generate"]) (jsTrim p) ||
       testWord (kws ["objective", "goal", "purpose", "aim", "want to", "need to"]) p)) ∧
    ((analyzeObjective p).achievable = !hasUnrealisticScope p) ∧
    (hasUnrealisticScope p =
      (testFull (kws ["build a app", "build an app", "create a system", "make a platform",
        "develop everything"]) (jsTrim p) ||
       (decide (p.length < 30) && testWord (kws ["app", "system", "platform"]) p))) ∧
    ((analyzeObjective p).score =
      (if (analyzeObjective p).goalClarity then 40 else 0) +
      (if (analyzeObjective p).measurable then 30 else 0) +
      (if (analyzeObjective p).achievable then 30 else 0)) :=
  ⟨rfl, rfl, rfl, objectiveScoreVal_eq _ _ _⟩

/-- Claim C6: for every component, flipping any single boolean trait from
false to true (the others held fixed) never decreases the component score. -/
theorem claim_C6 : ∀ x y : Bool,
    (contextScoreVal false x y ≤ contextScoreVal true x y ∧
     contextScoreVal x false y ≤ contextScoreVal x true y ∧
     contextScoreVal x y false ≤ contextScoreVal x y true) ∧
    (objectiveScoreVal false x y ≤ objectiveScoreVal true x y ∧
     objectiveScoreVal x false y ≤ objectiveScoreVal x true y ∧
     objectiveScoreVal x y false ≤ objectiveScoreVal x y true) ∧
    (styleScoreVal false x y ≤ styleScoreVal true x y ∧
     styleScoreVal x false y ≤ styleScoreVal x true y ∧
     styleScoreVal x y false ≤ styleScoreVal x y true) ∧
    (toneScoreVal false x y ≤ toneScoreVal true x y ∧
     toneScoreVal x false y ≤ toneScoreVal x true y ∧
     toneScoreVal x y false ≤ toneScoreVal x y true) ∧
    (audienceScoreVal false x y ≤ audienceScoreVal true x y ∧
     audienceScoreVal x false y ≤ audienceScoreVal x true y ∧
     audienceScoreVal x y false ≤ audienceScoreVal x y true) ∧
    (responseScoreVal false x y ≤ responseScoreVal true x y ∧
     responseScoreVal x false y ≤ responseScoreVal x true y ∧
     responseScoreVal x y false ≤ responseScoreVal x y true) := by decide

theorem dyLE_mono (n m : Int) (w : Dyadic) (h : n ≤ m) (hm : dyLE m w = true) :
    dyLE n w = true := by
  unfold dyLE at hm ⊢
  by_cases he : 0 ≤ w.e
  · simp only [he, if_true, decide_eq_true_eq] at hm ⊢
    exact le_trans h hm
  · simp only [he, if_false, decide_eq_true_eq] at hm ⊢
    calc n * 2 ^ (-w.e).toNat ≤ m * 2 ^ (-w.e).toNat :=
          mul_le_mul_of_nonneg_right h (by positivity)
      _ ≤ w.m := hm

theorem ratingOf_iff (w : Dyadic) :
    (ratingOf w = Rating.excellent ↔ dyLE 80 w = true) ∧
    (ratingOf w = Rating.good ↔ (dyLE 60 w = true ∧ dyLE 80 w = false)) ∧
    (ratingOf w = Rating.needsImprovement ↔ (dyLE 40 w = true ∧ dyLE 60 w = false)) ∧
    (ratingOf w = Rating.poor ↔ dyLE 40 w = false) := by
  by_cases h80 : dyLE 80 w = true
  · have h60 := dyLE_mono 60 80 w (by norm_num) h80
    have h40 := dyLE_mono 40 80 w (by norm_num) h80
    simp [ratingOf, h80, h60, h40]
  · by_cases h60 : dyLE 60 w = true
    · have h40 := dyLE_mono 40 60 w (by norm_num) h60
      simp [ratingOf, h80, h60, h40]
    · by_cases h40 : dyLE 40 w = true
      · simp [ratingOf, h80, h60, h40]
      · simp [ratingOf, h80, h60, h40]

/-- Claim C1 counterexample.  First input (fast mode, scores 100/44/97, exact
weighted sum 79.5): the returned record carries `overall = 80` but rating
`good`, so the rating lookup does not use the rounded overall as claimed.
Second input (scores 0/2/36): the returned `overall` is 11, while rounding the
exact weighted sum 11.5 half up as the claim states would give 12 (the
double-precision sum is just below 11.5). -/
theorem claim_C1_counterexample :
    ((calculateCOSTARScore ⟨⟨100, true, true, 100, [], []⟩, ⟨44, true, true, true, 44, [], []⟩,
        ⟨97, true, true, true, [], []⟩, none, none, none⟩).overall = 80 ∧
     (calculateCOSTARScore ⟨⟨100, true, true, 100, [], []⟩, ⟨44, true, true, true, 44, [], []⟩,
        ⟨97, true, true, true, [], []⟩, none, none, none⟩).rating = Rating.good) ∧
    ((calculateCOSTARScore ⟨⟨0, false, false, 0, [], []⟩, ⟨2, false, false, false, 2, [], []⟩,
        ⟨36, false, false, false, [], []⟩, none, none, none⟩).overall = 11 ∧
     jsRound ((35 * 0 + 35 * 2 + 30 * 36 : ℚ) / 100) = 12) := by
  refine ⟨⟨by decide, by decide⟩, by decide, ?_⟩
  unfold jsRound
  norm_num

/-- Claim C1 amended: the composite uses the stated mode-dependent weights,
computed in double precision; the returned `overall` is that sum rounded half
up, but the rating is looked up from the UNROUNDED sum (excellent iff ≥ 80,
good iff ≥ 60, needs-improvement iff ≥ 40, else poor).  The concrete fast-mode
example 50/80/40 yields overall 58 with rating needs-improvement. -/
theorem claim_C1_amended (c : ContextAnalysis) (o : ObjectiveAnalysis) (s : StyleAnalysis)
    (t : ToneAnalysis) (au : AudienceAnalysis) (r : ResponseAnalysis) :
    ((calculateCOSTARScore ⟨c, o, s, none, none, none⟩).overall =
      jsRoundD (fastOverall c.score o.score s.score)) ∧
    ((calculateCOSTARScore ⟨c, o, s, none, none, none⟩).rating = Rating.excellent ↔
      dyLE 80 (fastOverall c.score o.score s.score) = true) ∧
    ((calculateCOSTARScore ⟨c, o, s, none, none, none⟩).rating = Rating.good ↔
      (dyLE 60 (fastOverall c.score o.score s.score) = true ∧
       dyLE 80 (fastOverall c.score o.score s.score) = false)) ∧
    ((calculateCOSTARScore ⟨c, o, s, none, none, none⟩).rating = Rating.needsImprovement ↔
      (dyLE 40 (fastOverall c.score o.score s.score) = true ∧
       dyLE 60 (fastOverall c.score o.score s.score) = false)) ∧
    ((calculateCOSTARScore ⟨c, o, s, none, none, none⟩).rating = Rating.poor ↔
      dyLE 40 (fastOverall c.score o.score s.score) = false) ∧
    ((calculateCOSTARScore ⟨c, o, s, some t, some au, some r⟩).overall =
      jsRoundD (deepOverall c.score o.score s.score t.score au.score r.score)) ∧
    ((calculateCOSTARScore ⟨c, o, s, some t, some au, some r⟩).rating =
      ratingOf (deepOverall c.score o.score s.score t.score au.score r.score)) ∧
    ((calculateCOSTARScore ⟨⟨50, true, true, 50, [], []⟩, ⟨80, true, true, true, 80, [], []⟩,
        ⟨40, true, true, true, [], []⟩, none, none, none⟩).overall = 58 ∧
     (calculateCOSTARScore ⟨⟨50, true, true, 50, [], []⟩, ⟨80, true, true, true, 80, [], []⟩,
        ⟨40, true, true, true, [], []⟩, none, none, none⟩).rating = Rating.needsImprovement) :=
  ⟨rfl, (ratingOf_iff _).1, (ratingOf_iff _).2.1, (ratingOf_iff _).2.2.1, (ratingOf_iff _).2.2.2,
    rfl, rfl, by decide, by decide⟩

/-- Claim C9: when at least one but not all of tone/audience/response are
present, the aggregator uses the fast-mode weights over Context/Objective/Style
only, and merely copies the supplied optional scores into the returned record. -/
theorem claim_C9 (c : ContextAnalysis) (o : ObjectiveAnalysis) (s : StyleAnalysis)
    (t : Option ToneAnalysis) (au : Option AudienceAnalysis) (r : Option ResponseAnalysis)
    (hsome : t.isSome = true ∨ au.isSome = true ∨ r.isSome = true)
    (hnotall : ¬(t.isSome = true ∧ au.isSome = true ∧ r.isSome = true)) :
    (calculateCOSTARScore ⟨c, o, s, t, au, r⟩).overall =
        jsRoundD (fastOverall c.score o.score s.score) ∧
    (calculateCOSTARScore ⟨c, o, s, t, au, r⟩).rating =
        ratingOf (fastOverall c.score o.score s.score) ∧
    (calculateCOSTARScore ⟨c, o, s, t, au, r⟩).tone = (t.map fun x => x.score) ∧
    (calculateCOSTARScore ⟨c, o, s, t, au, r⟩).audience = (au.map fun x => x.score) ∧
    (calculateCOSTARScore ⟨c, o, s, t, au, r⟩).response = (r.map fun x => x.score) := by
  cases t with
  | none => cases au <;> cases r <;> exact ⟨rfl, rfl, rfl, rfl, rfl⟩
  | some tv =>
    cases au with
    | none => cases r <;> exact ⟨rfl, rfl, rfl, rfl, rfl⟩
    | some av =>
      cases r with
      | none => exact ⟨rfl, rfl, rfl, rfl, rfl⟩
      | some rv => exact absurd ⟨rfl, rfl, rfl⟩ hnotall

theorem claim_C9_witness :
    (calculateCOSTARScore ⟨⟨10, false, false, 0, [], []⟩, ⟨20, false, false, false, 0, [], []⟩,
        ⟨30, false, false, false, [], []⟩,
        some ⟨40, false, false, FormalityLevel.unspecified, [], []⟩, none, none⟩).overall =
      jsRoundD (fastOverall 10 20 30) ∧
    (calculateCOSTARScore ⟨⟨10, false, false, 0, [], []⟩, ⟨20, false, false, false, 0, [], []⟩,
        ⟨30, false, false, false, [], []⟩,
        some ⟨40, false, false, FormalityLevel.unspecified, [], []⟩, none, none⟩).rating =
      ratingOf (fastOverall 10 20 30) ∧
    (calculateCOSTARScore ⟨⟨10, false, false, 0, [], []⟩, ⟨20, false, false, false, 0, [], []⟩,
        ⟨30, false, false, false, [], []⟩,
        some ⟨40, false, false, FormalityLevel.unspecified, [], []⟩, none, none⟩).tone =
      ((some ⟨40, false, false, FormalityLevel.unspecified, [], []⟩ : Option ToneAnalysis).map
        fun x => x.score) ∧
    (calculateCOSTARScore ⟨⟨10, false, false, 0, [], []⟩, ⟨20, false, false, false, 0, [], []⟩,
        ⟨30, false, false, false, [], []⟩,
        some ⟨40, false, false, FormalityLevel.unspecified, [], []⟩, none, none⟩).audience =
      ((none : Option AudienceAnalysis).map fun x => x.score) ∧
    (calculateCOSTARScore ⟨⟨10, false, false, 0, [], []⟩, ⟨20, false, false, false, 0, [], []⟩,
        ⟨30, false, false, false, [], []⟩,
        some ⟨40, false, false, FormalityLevel.unspecified, [], []⟩, none, none⟩).response =
      ((none : Option ResponseAnalysis).map fun x => x.score) :=
  claim_C9 ⟨10, false, false, 0, [], []⟩ ⟨20, false, false, false, 0, [], []⟩
    ⟨30, false, false, false, [], []⟩ (some ⟨40, false, false, FormalityLevel.unspecified, [], []⟩)
    none none (Or.inl rfl) (by simp)

theorem iteEmpty_ne_nil (L : List ChangeRecord) (fb : ChangeRecord) :
    (if L.isEmpty then [fb] else L) ≠ [] := by
  cases L <;> simp

/-- Claim C7: the change summary is exactly one tagged record per gap the
analysis detected (in C, O, S, T, A, R order), and when no gap was detected it
is exactly the single fallback record, so it is never empty. -/
theorem claim_C7 (p : Str) (m : OptimizerMode) :
    (applyCOSTARFramework p m).changesSummary ≠ [] ∧
    (applyCOSTARFramework p m).changesSummary =
      ((fun L : List ChangeRecord =>
          if L.isEmpty then
            [⟨ComponentTag.O, ("Structured the prompt with COSTAR framework sections").toList⟩]
          else L)
        ((if !(analyzeContext p).hasBackground then
            [⟨ComponentTag.C, ("Added background context and situational details").toList⟩]
          else []) ++
         (if !(analyzeContext p).hasConstraints then
            [⟨ComponentTag.C, ("Specified constraints and requirements").toList⟩] else []) ++
         (if !(analyzeObjective p).goalClarity then
            [⟨ComponentTag.O, ("Clarified objective with clear goal statement").toList⟩]
          else []) ++
         (if !(analyzeObjective p).measurable then
            [⟨ComponentTag.O, ("Made objective measurable with success criteria").toList⟩]
          else []) ++
         (if !(analyzeStyle p).formatSpecified then
            [⟨ComponentTag.S, ("Specified output format and presentation style").toList⟩]
          else []) ++
         (if !(analyzeStyle p).structureDefined then
            [⟨ComponentTag.S, ("Defined structure and organization approach").toList⟩]
          else []) ++
         (match m with
          | OptimizerMode.deep =>
            if !(analyzeTone p).toneSpecified then
              [⟨ComponentTag.T,
                ("Added tone guidance for appropriate communication style").toList⟩]
            else []
          | OptimizerMode.fast => []) ++
         (match m with
          | OptimizerMode.deep =>
            if !(analyzeAudience p).audienceSpecified then
              [⟨ComponentTag.A, ("Defined target audience and skill level").toList⟩]
            else []
          | OptimizerMode.fast => []) ++
         (match m with
          | OptimizerMode.deep =>
            if !(analyzeResponse p).outputFormatClear then
              [⟨ComponentTag.R,
                ("Specified expected deliverables and response format").toList⟩]
            else []
          | OptimizerMode.fast => []))) := by
  refine ⟨?_, ?_⟩
  · cases m <;> exact iteEmpty_ne_nil _ _
  · cases m <;> rfl

set_option maxRecDepth 100000 in
set_option maxHeartbeats 4000000 in
/-- Claim C4 counterexample: on the prompt `context: ## TONE` the fast-mode
synthesized prompt contains FOUR of the six component header strings (the
context extractor echoes the prompt text `## TONE` into the output), so fast
mode does not contain exactly three section headers. -/
theorem claim_C4_counterexample :
    containsStr (("## CONTEXT").toList)
      ((applyCOSTARFramework (("context: ## TONE").toList) OptimizerMode.fast).improvedPrompt) =
        true ∧
    containsStr (("## OBJECTIVE").toList)
      ((applyCOSTARFramework (("context: ## TONE").toList) OptimizerMode.fast).improvedPrompt) =
        true ∧
    containsStr (("## STYLE").toList)
      ((applyCOSTARFramework (("context: ## TONE").toList) OptimizerMode.fast).improvedPrompt) =
        true ∧
    containsStr (("## TONE").toList)
      ((applyCOSTARFramework (("context: ## TONE").toList) OptimizerMode.fast).improvedPrompt) =
        true := by
  refine ⟨by decide, by decide, by decide, by decide⟩

/-- Claim C4 amended: the synthesized prompt contains, in COSTAR order and
followed by the Requirements header, all six component headers in deep mode and
the three core component headers in fast mode (the prompt text itself can echo
further header strings into the output, so "exactly three" holds only for
prompts that do not contain header strings). -/
theorem claim_C4_amended (p : Str) :
    InfixChain [("## CONTEXT").toList, ("## OBJECTIVE").toList, ("## STYLE").toList,
      ("## TONE").toList, ("## AUDIENCE").toList, ("## RESPONSE").toList,
      ("# Requirements").toList]
      ((applyCOSTARFramework p OptimizerMode.deep).improvedPrompt) ∧
    InfixChain [("## CONTEXT").toList, ("## OBJECTIVE").toList, ("## STYLE").toList,
      ("# Requirements").toList]
      ((applyCOSTARFramework p OptimizerMode.fast).improvedPrompt) := by
  constructor
  · simp only [applyCOSTARFramework]
    exact costarChainDeep p (analyzeContext p) (analyzeObjective p) (analyzeStyle p)
      (analyzeTone p) (analyzeAudience p) (analyzeResponse p)
  · simp only [applyCOSTARFramework]
    exact costarChainFast p (analyzeContext p) (analyzeObjective p) (analyzeStyle p)

theorem append_left_ne_nil {α : Type} (xs ys : List α) (h : xs ≠ []) : xs ++ ys ≠ [] := by
  cases xs with
  | nil => exact absurd rfl h
  | cons z zs => simp

theorem if_cons_ne_nil {α : Type} (b : Bool) (x : α) (h : b = false) :
    (if !b then [x] else ([] : List α)) ≠ [] := by
  subst h
  simp

set_option maxRecDepth 100000 in
set_option maxHeartbeats 4000000 in
/-- Claim C8: the analysis is a total function — component scores stay clamped
to 100, a missing primary trait is reported through non-empty issue and
suggestion lists rather than a failure, and the empty string yields the minimum
scores of the default heuristics (0 everywhere except Objective's 30 from the
vacuously-true achievability check) together with a synthesized prompt that
still carries every section header of the requested mode. -/
theorem claim_C8 :
    (∀ (p : Str) (m : OptimizerMode), (applyCOSTARFramework p m).context.score ≤ 100 ∧
      (applyCOSTARFramework p m).objective.score ≤ 100 ∧
      (applyCOSTARFramework p m).style.score ≤ 100) ∧
    (∀ p : Str, (analyzeContext p).hasBackground = false →
      ((analyzeContext p).issues ≠ [] ∧ (analyzeContext p).suggestions ≠ [])) ∧
    (∀ p : Str, (analyzeObjective p).goalClarity = false →
      ((analyzeObjective p).issues ≠ [] ∧ (analyzeObjective p).suggestions ≠ [])) ∧
    (∀ p : Str, (analyzeStyle p).formatSpecified = false →
      ((analyzeStyle p).issues ≠ [] ∧ (analyzeStyle p).suggestions ≠ [])) ∧
    (∀ p : Str, (analyzeTone p).toneSpecified = false →
      ((analyzeTone p).issues ≠ [] ∧ (analyzeTone p).suggestions ≠ [])) ∧
    (∀ p : Str, (analyzeAudience p).audienceSpecified = false →
      ((analyzeAudience p).issues ≠ [] ∧ (analyzeAudience p).suggestions ≠ [])) ∧
    (∀ p : Str, (analyzeResponse p).outputFormatClear = false →
      ((analyzeResponse p).issues ≠ [] ∧ (analyzeResponse p).suggestions ≠ [])) ∧
    ((applyCOSTARFramework [] OptimizerMode.deep).context.score = 0 ∧
     (applyCOSTARFramework [] OptimizerMode.deep).objective.score = 30 ∧
     (applyCOSTARFramework [] OptimizerMode.deep).style.score = 0 ∧
     ((applyCOSTARFramework [] OptimizerMode.deep).tone.map fun x => x.score) = some 0 ∧
     ((applyCOSTARFramework [] OptimizerMode.deep).audience.map fun x => x.score) = some 0 ∧
     ((applyCOSTARFramework [] OptimizerMode.deep).response.map fun x => x.score) = some 0 ∧
     (applyCOSTARFramework [] OptimizerMode.deep).overallScore = 6 ∧
     (applyCOSTARFramework [] OptimizerMode.fast).overallScore = 11 ∧
     (applyCOSTARFramework [] OptimizerMode.fast).tone = none ∧
     (applyCOSTARFramework [] OptimizerMode.fast).audience = none ∧
     (applyCOSTARFramework [] OptimizerMode.fast).response = none) ∧
    InfixChain [("## CONTEXT").toList, ("## OBJECTIVE").toList, ("## STYLE").toList,
      ("## TONE").toList, ("## AUDIENCE").toList, ("## RESPONSE").toList,
      ("# Requirements").toList]
      ((applyCOSTARFramework [] OptimizerMode.deep).improvedPrompt) ∧
    InfixChain [("## CONTEXT").toList, ("## OBJECTIVE").toList, ("## STYLE").toList,
      ("# Requirements").toList]
      ((applyCOSTARFramework [] OptimizerMode.fast).improvedPrompt) := by
  refine ⟨fun p m => ⟨Nat.min_le_left _ _, Nat.min_le_left _ _, Nat.min_le_left _ _⟩,
    ?_, ?_, ?_, ?_, ?_, ?_,
    ⟨by decide, by decide, by decide, by decide, by decide, by decide, by decide, by decide,
     by decide, by decide, by decide⟩, ?_, ?_⟩
  · intro p h
    simp only [analyzeContext] at h ⊢
    exact ⟨append_left_ne_nil _ _ (if_cons_ne_nil _ _ h),
      append_left_ne_nil _ _ (if_cons_ne_nil _ _ h)⟩
  · intro p h
    simp only [analyzeObjective] at h ⊢
    exact ⟨append_left_ne_nil _ _ (append_left_ne_nil _ _ (if_cons_ne_nil _ _ h)),
      append_left_ne_nil _ _ (append_left_ne_nil _ _ (if_cons_ne_nil _ _ h))⟩
  · intro p h
    simp only [analyzeStyle] at h ⊢
    exact ⟨append_left_ne_nil _ _ (if_cons_ne_nil _ _ h),
      append_left_ne_nil _ _ (append_left_ne_nil _ _ (if_cons_ne_nil _ _ h))⟩
  · intro p h
    simp only [analyzeTone] at h ⊢
    exact ⟨if_cons_ne_nil _ _ h, append_left_ne_nil _ _ (if_cons_ne_nil _ _ h)⟩
  · intro p h
    simp only [analyzeAudience] at h ⊢
    exact ⟨if_cons_ne_nil _ _ h,
      append_left_ne_nil _ _ (append_left_ne_nil _ _ (if_cons_ne_nil _ _ h))⟩
  · intro p h
    simp only [analyzeResponse] at h ⊢
    exact ⟨append_left_ne_nil _ _ (if_cons_ne_nil _ _ h),
      append_left_ne_nil _ _ (append_left_ne_nil _ _ (if_cons_ne_nil _ _ h))⟩
  · simp only [applyCOSTARFramework]
    exact costarChainDeep [] (analyzeContext []) (analyzeObjective []) (analyzeStyle [])
      (analyzeTone []) (analyzeAudience []) (analyzeResponse [])
  · simp only [applyCOSTARFramework]
    exact costarChainFast [] (analyzeContext []) (analyzeObjective []) (analyzeStyle [])

theorem claim_C8_witness :
    ((analyzeContext (("hello").toList)).issues ≠ [] ∧
     (analyzeContext (("hello").toList)).suggestions ≠ []) ∧
    ((analyzeObjective (("hello").toList)).issues ≠ [] ∧
     (analyzeObjective (("hello").toList)).suggestions ≠ []) ∧
    ((analyzeStyle (("hello").toList)).issues ≠ [] ∧
     (analyzeStyle (("hello").toList)).suggestions ≠ []) ∧
    ((analyzeTone (("hello").toList)).issues ≠ [] ∧
     (analyzeTone (("hello").toList)).suggestions ≠ []) ∧
    ((analyzeAudience (("hello").toList)).issues ≠ [] ∧
     (analyzeAudience (("hello").toList)).suggestions ≠ []) ∧
    ((analyzeResponse (("hello").toList)).issues ≠ [] ∧
     (analyzeResponse (("hello").toList)).suggestions ≠ []) :=
  ⟨claim_C8.2.1 (("hello").toList) (by decide),
   claim_C8.2.2.1 (("hello").toList) (by decide),
   claim_C8.2.2.2.1 (("hello").toList) (by decide),
   claim_C8.2.2.2.2.1 (("hello").toList) (by decide),
   claim_C8.2.2.2.2.2.1 (("hello").toList) (by decide),
   claim_C8.2.2.2.2.2.2.1 (("hello").toList) (by decide)⟩
